import Mathlib

/-!
Shallow embedding of the two scripts of `fzy_kmeans_rs`:
`src/scripts/gen_ex_data.py` (the Generator) and
`src/scripts/plot_comparison.py` (the Comparator).

Modelling conventions:
* A CSV file is a list of lines, each line a list of fields separated by
  `sep=";"`.  A field is either text (a header word) or the decimal text
  of a numeric value; numeric text is modelled exactly by the rational it
  denotes, so writing a value and parsing it back is the identity (the
  "up to floating-point text precision" reading of a round trip).
* The Generator's unseeded randomness is an explicit input `Draws`:
  `d cls i j` is the j-th `np.random.normal` draw for dimension `i` of
  class `cls`.
* Side effects of the Generator (`plt.show`, `df.to_csv`) are an explicit
  trace of `Effect`s in program order.
* `pd.read_csv(..., dtype="float")` is `read_csv`: it drops `skiprows`
  lines, then parses every remaining field as a number; a text field makes
  the whole read fail (`none`), the model of the raised parse error.
-/

namespace FzyKmeans

/-- N_SAMPLES = 100 in gen_ex_data.py. -/
def N_SAMPLES : Nat := 100

/-- N_DIMS = 2 in gen_ex_data.py. -/
def N_DIMS : Nat := 2

/-- N_CLASSES = 3 in gen_ex_data.py. -/
def N_CLASSES : Nat := 3

/-- One semicolon-separated CSV field: header text or the text of a number. -/
inductive Field where
  | str (s : String)
  | num (q : ℚ)
deriving DecidableEq, Repr

/-- One generated row: `N_DIMS` feature values and the class label. -/
structure Sample where
  features : List ℚ
  cls : Nat
deriving DecidableEq, Repr

/-- The random draws of one Generator run. -/
abbrev Draws := Nat → Nat → Nat → ℚ

/-- Rows of the per-class frame `tmp`: column `feature_i` holds the
`N_SAMPLES` normal draws of dimension `i`, column `cls` the class index. -/
def classRows (d : Draws) (cls : Nat) : List Sample :=
  (List.range N_SAMPLES).map (fun j =>
    ⟨(List.range N_DIMS).map (fun i => d cls i j), cls⟩)

/-- df = pd.concat(dfs): the class blocks in order cls = 0, 1, ..., N_CLASSES-1. -/
def dataset (d : Draws) : List Sample :=
  (List.range N_CLASSES).flatMap (fun cls => classRows d cls)

/-- The header fields `feature_0`, ..., `feature_{N_DIMS-1}`. -/
def featureHeader : List Field :=
  (List.range N_DIMS).map (fun i => Field.str ("feature_" ++ toString i))

/-- Lines of `sample_data.csv`: `df.to_csv(..., sep=";", index=False,
columns=[feature_i])` — header line, then one line of feature fields per
row, the `cls` column omitted. -/
def sampleDataCsv (d : Draws) : List (List Field) :=
  featureHeader :: (dataset d).map (fun s => s.features.map Field.num)

/-- Lines of `ground_truth.csv`: `df.to_csv(..., sep=";", index=False)` —
header line, then each row's features followed by its `cls` value. -/
def groundTruthCsv (d : Draws) : List (List Field) :=
  (featureHeader ++ [Field.str "cls"]) ::
    (dataset d).map (fun s => s.features.map Field.num ++ [Field.num (s.cls : ℚ)])

/-- An observable side effect of the Generator. -/
inductive Effect where
  | plot
  | write (name : String) (lines : List (List Field))
deriving DecidableEq, Repr

/-- Whether an effect is a file write. -/
def Effect.isWrite : Effect → Bool
  | .write _ _ => true
  | .plot => false

/-- The Generator's effects in program order: `sns.pairplot`/`plt.show`
only when "--plot" is among `sys.argv`, then the two `to_csv` writes. -/
def generatorTrace (argv : List String) (d : Draws) : List Effect :=
  (if "--plot" ∈ argv then [Effect.plot] else []) ++
    [Effect.write "sample_data.csv" (sampleDataCsv d),
     Effect.write "ground_truth.csv" (groundTruthCsv d)]

/-- The file writes of a trace, in order. -/
def writtenFiles (t : List Effect) : List Effect :=
  t.filter Effect.isWrite

/-- dtype="float": a numeric field parses to its value, text fails. -/
def parseFloat : Field → Option ℚ
  | Field.num q => some q
  | Field.str _ => none

/-- A loaded frame: the assigned column names and the parsed rows. -/
structure DataFrame where
  names : List String
  rows : List (List ℚ)
deriving DecidableEq, Repr

/-- `pd.read_csv(path, sep=";", names=names, dtype="float", skiprows=k)`:
drop the first `k` lines, parse every field of every remaining line as a
float, fail on any text field. -/
def read_csv (file : List (List Field)) (names : List String) (skiprows : Nat) :
    Option DataFrame :=
  ((file.drop skiprows).mapM (fun row : List Field => row.mapM parseFloat)).map
    (fun rows => ⟨names, rows⟩)

/-- Column access `df[name]` by the assigned position of `name`. -/
def DataFrame.col (df : DataFrame) (name : String) : List ℚ :=
  df.rows.map (fun r => r.getD (df.names.indexOf name) 0)

/-- `df[df["cls"] == c]`: the rows whose `cls` entry equals `c`. -/
def DataFrame.filterCls (df : DataFrame) (c : ℚ) : DataFrame :=
  ⟨df.names, df.rows.filter (fun r => r.getD (df.names.indexOf "cls") 0 == c)⟩

/-- `Series.unique()`: the distinct values in order of first appearance. -/
def uniqueVals (l : List ℚ) : List ℚ :=
  l.foldl (fun acc x => if x ∈ acc then acc else acc ++ [x]) []

/-- One `ax.scatter` call: the x data, the y data, the explicit color
(`none` = automatic color cycling), and whether `marker="x"` was passed. -/
structure Series where
  xs : List ℚ
  ys : List ℚ
  color : Option String
  marker_x : Bool
deriving DecidableEq, Repr

/-- The per-class scatter loop: one series per distinct `cls` value, in
order of first appearance, no explicit color, default marker. -/
def classSeries (df : DataFrame) : List Series :=
  (uniqueVals (df.col "cls")).map (fun c =>
    let tmp := df.filterCls c
    ⟨tmp.col "feature_1", tmp.col "feature_2", none, false⟩)

/-- The cluster-centers scatter: `color="red"`, `marker="x"`. -/
def centerSeries (cluster_centers : DataFrame) : Series :=
  ⟨cluster_centers.col "feature_1", cluster_centers.col "feature_2",
    some "red", true⟩

/-- The two-subplot figure the Comparator draws. -/
structure Figure where
  top : List Series
  bottom : List Series
  topTitle : String
  bottomTitle : String
deriving DecidableEq, Repr

/-- The figure built from the three loaded frames: per-class series plus
the cluster-center series on `ax[0]`, per-class series on `ax[1]`. -/
def comparatorFigure (prediction ground_truth cluster_centers : DataFrame) :
    Figure :=
  ⟨classSeries prediction ++ [centerSeries cluster_centers],
    classSeries ground_truth, "Prediction", "Ground Truth"⟩

/-- Column names assigned to predicted_classes.csv and ground_truth.csv. -/
def predNames : List String := ["feature_1", "feature_2", "cls"]

/-- Column names assigned to clusters.csv. -/
def clusterNames : List String := ["feature_1", "feature_2"]

/-- The whole Comparator run on the contents of the three files read from
`../files`, in program order: load predicted_classes.csv headerless, load
ground_truth.csv with `skiprows=1`, load clusters.csv headerless, then
build the figure; any failed read aborts before a figure exists. -/
def comparatorRun (predFile gtFile clusFile : List (List Field)) :
    Option Figure := do
  let prediction ← read_csv predFile predNames 0
  let ground_truth ← read_csv gtFile predNames 1
  let cluster_centers ← read_csv clusFile clusterNames 0
  pure (comparatorFigure prediction ground_truth cluster_centers)

/-- The all-zero draws, a concrete Generator input for witnesses. -/
def dZero : Draws := fun _ _ _ => 0

/-- Concrete predicted_classes.csv content for witnesses: three rows,
three distinct class values. -/
def predFileW : List (List Field) :=
  [[Field.num 1, Field.num 2, Field.num 0],
   [Field.num 3, Field.num 4, Field.num 1],
   [Field.num 5, Field.num 6, Field.num 2]]

/-- A concrete ground_truth.csv header line for witnesses. -/
def gtHeadW : List Field :=
  [Field.str "feature_0", Field.str "feature_1", Field.str "cls"]

/-- A concrete all-numeric first line for witnesses. -/
def gtHeadAltW : List Field :=
  [Field.num 7, Field.num 8, Field.num 9]

/-- Concrete ground_truth.csv data lines for witnesses. -/
def gtRestW : List (List Field) :=
  [[Field.num 1, Field.num 2, Field.num 0],
   [Field.num 3, Field.num 4, Field.num 1]]

/-- Concrete ground_truth.csv content for witnesses: header plus two rows. -/
def gtFileW : List (List Field) := gtHeadW :: gtRestW

/-- Concrete clusters.csv content for witnesses: one center. -/
def clusFileW : List (List Field) :=
  [[Field.num 5, Field.num 6]]

/-- The frame predFileW loads to. -/
def predFrameW : DataFrame :=
  ⟨predNames, [[1, 2, 0], [3, 4, 1], [5, 6, 2]]⟩

/-- The frame gtFileW loads to (header line skipped). -/
def gtFrameW : DataFrame :=
  ⟨predNames, [[1, 2, 0], [3, 4, 1]]⟩

/-- The frame clusFileW loads to. -/
def clusFrameW : DataFrame :=
  ⟨clusterNames, [[5, 6]]⟩

/-! ## Helper lemmas -/

theorem mapM_parseFloat_map_num (l : List ℚ) :
    (l.map Field.num).mapM parseFloat = some l := by
  induction l with
  | nil => rfl
  | cons a l ih => rw [List.map_cons, List.mapM_cons, ih]; rfl

theorem mapM_parseFloat_row (l : List ℚ) (q : ℚ) :
    (l.map Field.num ++ [Field.num q]).mapM parseFloat = some (l ++ [q]) := by
  induction l with
  | nil => rfl
  | cons a l ih => rw [List.map_cons, List.cons_append, List.mapM_cons, ih]; rfl

theorem mapM_rows (l : List Sample) :
    (l.map (fun s => s.features.map Field.num ++ [Field.num (s.cls : ℚ)])).mapM
        (fun row : List Field => row.mapM parseFloat) =
      some (l.map (fun s => s.features ++ [(s.cls : ℚ)])) := by
  induction l with
  | nil => rfl
  | cons s l ih =>
      rw [List.map_cons, List.mapM_cons]
      simp only [mapM_parseFloat_row, ih]
      rfl

theorem mapM_some_length {α β : Type} (f : α → Option β) :
    ∀ {l : List α} {l' : List β}, l.mapM f = some l' → l'.length = l.length := by
  intro l
  induction l with
  | nil =>
      intro l' h
      rw [List.mapM_nil] at h
      cases h
      rfl
  | cons a l ih =>
      intro l' h
      rw [List.mapM_cons] at h
      simp only [Option.bind_eq_bind, Option.bind_eq_some] at h
      obtain ⟨b, _, bs, hbs, hl⟩ := h
      have hl' : l' = b :: bs := (Option.some.inj hl).symm
      subst hl'
      simp [ih hbs]

theorem mem_dataset (d : Draws) {s : Sample} (h : s ∈ dataset d) :
    s.features.length = N_DIMS ∧ s.cls < N_CLASSES := by
  simp only [dataset, List.mem_flatMap, List.mem_range] at h
  obtain ⟨c, hc, hs⟩ := h
  simp only [classRows, List.mem_map, List.mem_range] at hs
  obtain ⟨j, _, rfl⟩ := hs
  simp [hc]

theorem dataset_length (d : Draws) : (dataset d).length = 300 := by
  simp only [dataset, List.length_flatMap, Function.comp_def, classRows,
    List.length_map, List.length_range]
  decide

theorem groundTruth_data_rows (d : Draws) :
    (groundTruthCsv d).drop 1 =
      (dataset d).map
        (fun s => s.features.map Field.num ++ [Field.num (s.cls : ℚ)]) := rfl

theorem sampleData_data_rows (d : Draws) :
    (sampleDataCsv d).drop 1 =
      (dataset d).map (fun s => s.features.map Field.num) := rfl

/-! ## Claims about the Generator's files -/

/-- C1: re-reading the written `ground_truth.csv` with the Comparator's load
configuration (assigned names, first line skipped, every field parsed as a
float) succeeds and reproduces exactly the written feature values and class
label of every row, in the same number of rows. -/
theorem roundTrip_groundTruth (d : Draws) :
    ∃ df : DataFrame,
      read_csv (groundTruthCsv d) predNames 1 = some df ∧
      df.rows = (dataset d).map (fun s => s.features ++ [(s.cls : ℚ)]) ∧
      df.rows.length = ((groundTruthCsv d).drop 1).length := by
  refine ⟨⟨predNames, (dataset d).map (fun s => s.features ++ [(s.cls : ℚ)])⟩,
    ?_, rfl, ?_⟩
  · rw [read_csv, groundTruth_data_rows, mapM_rows]
    rfl
  · rw [groundTruth_data_rows]
    simp

/-- C2: the number of data rows written to `sample_data.csv` equals the
number written to `ground_truth.csv`, and both equal
`N_CLASSES * N_SAMPLES = 300`. -/
theorem generated_row_counts (d : Draws) :
    ((sampleDataCsv d).drop 1).length = N_CLASSES * N_SAMPLES ∧
    ((groundTruthCsv d).drop 1).length = N_CLASSES * N_SAMPLES ∧
    N_CLASSES * N_SAMPLES = 300 := by
  refine ⟨?_, ?_, by decide⟩
  · rw [sampleData_data_rows, List.length_map, dataset_length]
    decide
  · rw [groundTruth_data_rows, List.length_map, dataset_length]
    decide

/-- C3: every data row of `ground_truth.csv` carries a class value that is
a natural number below `N_CLASSES`, and the class column is exactly the
`N_CLASSES` contiguous blocks of `N_SAMPLES` identical labels in class
order 0, 1, ..., with no shuffling. -/
theorem groundTruth_cls_grouped (d : Draws) :
    (∀ r ∈ (groundTruthCsv d).drop 1, ∃ c : Nat, c < N_CLASSES ∧
        r.getLast? = some (Field.num (c : ℚ))) ∧
    ((groundTruthCsv d).drop 1).map (fun r => r.getLast?) =
      (List.range N_CLASSES).flatMap
        (fun c => List.replicate N_SAMPLES (some (Field.num (c : ℚ)))) := by
  constructor
  · intro r hr
    rw [groundTruth_data_rows] at hr
    obtain ⟨s, hs, rfl⟩ := List.mem_map.mp hr
    exact ⟨s.cls, (mem_dataset d hs).2, List.getLast?_concat _⟩
  · rw [groundTruth_data_rows, List.map_map, dataset, List.map_flatMap]
    refine congrArg (List.flatMap (List.range N_CLASSES)) (funext fun c => ?_)
    rw [classRows, List.map_map]
    simp only [Function.comp_def, List.getLast?_concat, List.map_const',
      List.length_range]

/-- C4: `sample_data.csv` has header `feature_0;feature_1` and two fields
per data row with no class column, while `ground_truth.csv` has the same
header plus a final `cls` name, and its data rows are exactly the rows of
`sample_data.csv` with the single class field appended. -/
theorem sample_groundTruth_columns (d : Draws) :
    (sampleDataCsv d).head? = some [Field.str "feature_0", Field.str "feature_1"] ∧
    (groundTruthCsv d).head? =
      some [Field.str "feature_0", Field.str "feature_1", Field.str "cls"] ∧
    (∀ r ∈ (sampleDataCsv d).drop 1, r.length = N_DIMS) ∧
    (∀ r ∈ (groundTruthCsv d).drop 1, r.length = N_DIMS + 1) ∧
    ((groundTruthCsv d).drop 1).map (fun r => r.take N_DIMS) =
      (sampleDataCsv d).drop 1 ∧
    ((groundTruthCsv d).drop 1).map (fun r => r.drop N_DIMS) =
      (dataset d).map (fun s => [Field.num (s.cls : ℚ)]) := by
  refine ⟨rfl, rfl, ?_, ?_, ?_, ?_⟩
  · intro r hr
    rw [sampleData_data_rows] at hr
    obtain ⟨s, hs, rfl⟩ := List.mem_map.mp hr
    rw [List.length_map]
    exact (mem_dataset d hs).1
  · intro r hr
    rw [groundTruth_data_rows] at hr
    obtain ⟨s, hs, rfl⟩ := List.mem_map.mp hr
    rw [List.length_append, List.length_map, (mem_dataset d hs).1]
    rfl
  · rw [groundTruth_data_rows, sampleData_data_rows, List.map_map]
    refine List.map_congr_left (fun s hs => ?_)
    exact List.take_left' (by rw [List.length_map]; exact (mem_dataset d hs).1)
  · rw [groundTruth_data_rows, List.map_map]
    refine List.map_congr_left (fun s hs => ?_)
    exact List.drop_left' (by rw [List.length_map]; exact (mem_dataset d hs).1)

/-- C7: the written contents of `sample_data.csv` and `ground_truth.csv`
are the same whether or not `--plot` is among the arguments, and any plot
effect in the trace occurs strictly before every file write. -/
theorem plot_flag_frame (argv argv2 : List String) (d : Draws) :
    writtenFiles (generatorTrace argv d) = writtenFiles (generatorTrace argv2 d) ∧
    (∀ i j : Nat, ∀ nm : String, ∀ ls : List (List Field),
      (generatorTrace argv d)[i]? = some Effect.plot →
      (generatorTrace argv d)[j]? = some (Effect.write nm ls) →
      i < j) := by
  constructor
  · by_cases h1 : "--plot" ∈ argv <;> by_cases h2 : "--plot" ∈ argv2 <;>
      simp [generatorTrace, writtenFiles, h1, h2, Effect.isWrite]
  · intro i j nm ls hi hj
    by_cases h1 : "--plot" ∈ argv
    · rcases i with _ | _ | _ | i <;> rcases j with _ | _ | _ | j <;>
        simp_all [generatorTrace, h1]
    · rcases i with _ | _ | _ | i <;>
        simp_all [generatorTrace, h1]

/-- C8: a plot effect occurs exactly when the string `--plot` is among the
command-line arguments, and any two argument lists agreeing on whether
they contain `--plot` produce identical Generator traces. -/
theorem cli_plot_only (argv argv2 : List String) (d : Draws) :
    (Effect.plot ∈ generatorTrace argv d ↔ "--plot" ∈ argv) ∧
    (("--plot" ∈ argv ↔ "--plot" ∈ argv2) →
      generatorTrace argv d = generatorTrace argv2 d) := by
  constructor
  · by_cases h : "--plot" ∈ argv <;> simp [generatorTrace, h]
  · intro hiff
    by_cases h : "--plot" ∈ argv
    · rw [generatorTrace, generatorTrace, if_pos h, if_pos (hiff.mp h)]
    · rw [generatorTrace, generatorTrace, if_neg h,
        if_neg (fun h2 => h (hiff.mpr h2))]

/-! ## Helper lemmas about the Comparator -/

theorem read_csv_some {file : List (List Field)} {names : List String}
    {k : Nat} {df : DataFrame} (h : read_csv file names k = some df) :
    df.names = names ∧ df.rows.length = (file.drop k).length := by
  rw [read_csv] at h
  obtain ⟨rows, hrows, rfl⟩ := Option.map_eq_some'.mp h
  exact ⟨rfl, mapM_some_length _ hrows⟩

theorem uniqueVals_loop (l : List ℚ) :
    ∀ acc : List ℚ, acc.Nodup →
      (l.foldl (fun acc x => if x ∈ acc then acc else acc ++ [x]) acc).Nodup ∧
      (l.foldl (fun acc x => if x ∈ acc then acc else acc ++ [x]) acc).toFinset =
        acc.toFinset ∪ l.toFinset := by
  induction l with
  | nil => intro acc h; simp [h]
  | cons x l ih =>
      intro acc h
      rw [List.foldl_cons]
      by_cases hx : x ∈ acc
      · simp only [if_pos hx]
        refine ⟨(ih acc h).1, ?_⟩
        rw [(ih acc h).2]
        ext y
        simp only [Finset.mem_union, List.mem_toFinset, List.mem_cons]
        constructor
        · rintro (h1 | h2)
          · exact Or.inl h1
          · exact Or.inr (Or.inr h2)
        · rintro (h1 | rfl | h2)
          · exact Or.inl h1
          · exact Or.inl hx
          · exact Or.inr h2
      · simp only [if_neg hx]
        have hacc : (acc ++ [x]).Nodup := by
          rw [List.nodup_append]
          exact ⟨h, List.nodup_singleton x,
            fun a ha hb => hx ((List.mem_singleton.mp hb) ▸ ha)⟩
        refine ⟨(ih _ hacc).1, ?_⟩
        rw [(ih _ hacc).2]
        ext y
        simp only [Finset.mem_union, List.mem_toFinset, List.mem_append,
          List.mem_cons, List.mem_singleton]
        tauto

theorem uniqueVals_length (l : List ℚ) :
    (uniqueVals l).length = l.toFinset.card := by
  have h1 := (uniqueVals_loop l [] List.nodup_nil).1
  have h2 := (uniqueVals_loop l [] List.nodup_nil).2
  rw [uniqueVals, ← List.toFinset_card_of_nodup h1, h2]
  simp

theorem classSeries_length (df : DataFrame) :
    (classSeries df).length = (df.col "cls").toFinset.card := by
  rw [classSeries, List.length_map, uniqueVals_length]

theorem mem_classSeries {df : DataFrame} {s : Series} (h : s ∈ classSeries df) :
    s.color = none ∧ s.marker_x = false := by
  simp only [classSeries, List.mem_map] at h
  obtain ⟨c, _, rfl⟩ := h
  exact ⟨rfl, rfl⟩

theorem mapM_parseFloat_none {r : List Field} (s : String)
    (h : Field.str s ∈ r) : r.mapM parseFloat = none := by
  induction r with
  | nil => cases h
  | cons a r ih =>
      rw [List.mapM_cons]
      simp only [Option.bind_eq_bind]
      rcases List.mem_cons.mp h with rfl | hmem
      · rw [show parseFloat (Field.str s) = none from rfl, Option.none_bind]
      · cases ha : parseFloat a
        · rw [Option.none_bind]
        · rw [Option.some_bind, ih hmem, Option.none_bind]

theorem mapM_rows_none {file : List (List Field)} {r : List Field}
    (hr : r ∈ file) (hnone : r.mapM parseFloat = none) :
    file.mapM (fun row : List Field => row.mapM parseFloat) = none := by
  induction file with
  | nil => cases hr
  | cons a file ih =>
      rw [List.mapM_cons]
      simp only [Option.bind_eq_bind]
      rcases List.mem_cons.mp hr with rfl | hmem
      · rw [hnone, Option.none_bind]
      · cases ha : a.mapM parseFloat
        · rw [Option.none_bind]
        · rw [Option.some_bind, ih hmem, Option.none_bind]

theorem read_csv_none {file : List (List Field)} {names : List String}
    {k : Nat} (h : ∃ r ∈ file.drop k, ∃ s, Field.str s ∈ r) :
    read_csv file names k = none := by
  obtain ⟨r, hr, s, hs⟩ := h
  rw [read_csv, mapM_rows_none hr (mapM_parseFloat_none s hs)]
  rfl

/-! ## Claims about the Comparator -/

/-- C5: the Comparator's three loads assign exactly the declared column
names, read predicted_classes.csv and clusters.csv headerless (every line
is a data row), skip exactly the first line of ground_truth.csv, and the
whole run is the figure built from the three loaded frames. -/
theorem comparator_load (p g c : List (List Field)) (P G C : DataFrame)
    (hp : read_csv p predNames 0 = some P)
    (hg : read_csv g predNames 1 = some G)
    (hc : read_csv c clusterNames 0 = some C) :
    comparatorRun p g c = some (comparatorFigure P G C) ∧
    P.names = ["feature_1", "feature_2", "cls"] ∧
    G.names = ["feature_1", "feature_2", "cls"] ∧
    C.names = ["feature_1", "feature_2"] ∧
    P.rows.length = p.length ∧
    G.rows.length = g.length - 1 ∧
    C.rows.length = c.length := by
  refine ⟨?_, (read_csv_some hp).1, (read_csv_some hg).1, (read_csv_some hc).1,
    (read_csv_some hp).2, ?_, (read_csv_some hc).2⟩
  · simp only [comparatorRun, hp, hg, hc, Option.bind_eq_bind, Option.some_bind]
    rfl
  · exact (read_csv_some hg).2.trans (List.length_drop 1 g)

/-- C6: when the loaded predictions hold k distinct class values, the top
subplot holds exactly k default-marker series (each with automatic color)
plus exactly one x-marker series in the fixed color "red" drawing the
cluster centers, and the bottom subplot holds one series per distinct
ground-truth class value. -/
theorem comparator_series_counts (P G C : DataFrame) (k : Nat)
    (hk : (P.col "cls").toFinset.card = k) :
    ((comparatorFigure P G C).top.filter (fun s => !s.marker_x)).length = k ∧
    ((comparatorFigure P G C).top.filter (fun s => s.marker_x)).length = 1 ∧
    (∀ s ∈ (comparatorFigure P G C).top, s.marker_x = true →
      s.color = some "red" ∧ s.xs = C.col "feature_1" ∧
        s.ys = C.col "feature_2") ∧
    (∀ s ∈ (comparatorFigure P G C).top, s.marker_x = false →
      s.color = none) ∧
    (comparatorFigure P G C).bottom.length = (G.col "cls").toFinset.card := by
  have hfilt : (classSeries P).filter (fun s => !s.marker_x) = classSeries P :=
    List.filter_eq_self.mpr (fun s hs => by rw [(mem_classSeries hs).2]; rfl)
  have hfilt2 : (classSeries P).filter (fun s => s.marker_x) = [] :=
    List.filter_eq_nil_iff.mpr (fun s hs => by simp [(mem_classSeries hs).2])
  refine ⟨?_, ?_, ?_, ?_, classSeries_length G⟩
  · show ((classSeries P ++ [centerSeries C]).filter _).length = k
    rw [List.filter_append, hfilt]
    rw [show ([centerSeries C]).filter (fun s => !s.marker_x) = [] from rfl]
    rw [List.append_nil, classSeries_length, hk]
  · show ((classSeries P ++ [centerSeries C]).filter _).length = 1
    rw [List.filter_append, hfilt2]
    rfl
  · intro s hs hmark
    rcases List.mem_append.mp hs with h | h
    · rw [(mem_classSeries h).2] at hmark
      cases hmark
    · rw [List.mem_singleton.mp h]
      exact ⟨rfl, rfl, rfl⟩
  · intro s hs hmark
    rcases List.mem_append.mp hs with h | h
    · exact (mem_classSeries h).1
    · rw [List.mem_singleton.mp h] at hmark
      simp [centerSeries] at hmark

/-- C9: the first line of ground_truth.csv is skipped unconditionally:
the loaded frame holds one row fewer than the file has lines, and the
loaded result does not depend on the first line at all, so an all-numeric
first data row would be dropped just like a header. -/
theorem skiprows_unconditional (l0 l0' : List Field) (rest : List (List Field))
    (G : DataFrame) (h : read_csv (l0 :: rest) predNames 1 = some G) :
    G.rows.length = (l0 :: rest).length - 1 ∧
    read_csv (l0 :: rest) predNames 1 = read_csv (l0' :: rest) predNames 1 := by
  exact ⟨(read_csv_some h).2.trans (List.length_drop 1 _), rfl⟩

/-- C10: every column of every file is parsed as a float, so any
non-numeric field outside the skipped first line of ground_truth.csv —
in particular a header line in predicted_classes.csv or clusters.csv —
makes the whole run fail with no figure. -/
theorem nonNumeric_field_aborts (p g c : List (List Field))
    (h : (∃ r ∈ p, ∃ s, Field.str s ∈ r) ∨
      (∃ r ∈ g.drop 1, ∃ s, Field.str s ∈ r) ∨
      (∃ r ∈ c, ∃ s, Field.str s ∈ r)) :
    comparatorRun p g c = none := by
  simp only [comparatorRun, Option.bind_eq_bind]
  rcases h with h | h | h
  · rw [@read_csv_none p predNames 0 h, Option.none_bind]
  · cases hp : read_csv p predNames 0
    · rw [Option.none_bind]
    · rw [Option.some_bind, @read_csv_none g predNames 1 h, Option.none_bind]
  · cases hp : read_csv p predNames 0
    · rw [Option.none_bind]
    · rw [Option.some_bind]
      cases hg : read_csv g predNames 1
      · rw [Option.none_bind]
      · rw [Option.some_bind, @read_csv_none c clusterNames 0 h,
          Option.none_bind]

/-! ## Witness instances of the claims at concrete inputs -/

theorem roundTrip_groundTruth_witness :
    ∃ df : DataFrame,
      read_csv (groundTruthCsv dZero) predNames 1 = some df ∧
      df.rows = (dataset dZero).map (fun s => s.features ++ [(s.cls : ℚ)]) ∧
      df.rows.length = ((groundTruthCsv dZero).drop 1).length :=
  roundTrip_groundTruth dZero

theorem generated_row_counts_witness :
    ((sampleDataCsv dZero).drop 1).length = N_CLASSES * N_SAMPLES ∧
    ((groundTruthCsv dZero).drop 1).length = N_CLASSES * N_SAMPLES ∧
    N_CLASSES * N_SAMPLES = 300 :=
  generated_row_counts dZero

theorem groundTruth_cls_grouped_witness :
    (∀ r ∈ (groundTruthCsv dZero).drop 1, ∃ c : Nat, c < N_CLASSES ∧
        r.getLast? = some (Field.num (c : ℚ))) ∧
    ((groundTruthCsv dZero).drop 1).map (fun r => r.getLast?) =
      (List.range N_CLASSES).flatMap
        (fun c => List.replicate N_SAMPLES (some (Field.num (c : ℚ)))) :=
  groundTruth_cls_grouped dZero

theorem sample_groundTruth_columns_witness :
    (sampleDataCsv dZero).head? =
      some [Field.str "feature_0", Field.str "feature_1"] ∧
    (groundTruthCsv dZero).head? =
      some [Field.str "feature_0", Field.str "feature_1", Field.str "cls"] ∧
    (∀ r ∈ (sampleDataCsv dZero).drop 1, r.length = N_DIMS) ∧
    (∀ r ∈ (groundTruthCsv dZero).drop 1, r.length = N_DIMS + 1) ∧
    ((groundTruthCsv dZero).drop 1).map (fun r => r.take N_DIMS) =
      (sampleDataCsv dZero).drop 1 ∧
    ((groundTruthCsv dZero).drop 1).map (fun r => r.drop N_DIMS) =
      (dataset dZero).map (fun s => [Field.num (s.cls : ℚ)]) :=
  sample_groundTruth_columns dZero

theorem comparator_load_witness :
    comparatorRun predFileW gtFileW clusFileW =
      some (comparatorFigure predFrameW gtFrameW clusFrameW) ∧
    predFrameW.names = ["feature_1", "feature_2", "cls"] ∧
    gtFrameW.names = ["feature_1", "feature_2", "cls"] ∧
    clusFrameW.names = ["feature_1", "feature_2"] ∧
    predFrameW.rows.length = predFileW.length ∧
    gtFrameW.rows.length = gtFileW.length - 1 ∧
    clusFrameW.rows.length = clusFileW.length :=
  comparator_load predFileW gtFileW clusFileW predFrameW gtFrameW clusFrameW
    (by decide) (by decide) (by decide)

theorem comparator_series_counts_witness :
    ((comparatorFigure predFrameW gtFrameW clusFrameW).top.filter
        (fun s => !s.marker_x)).length = 3 ∧
    ((comparatorFigure predFrameW gtFrameW clusFrameW).top.filter
        (fun s => s.marker_x)).length = 1 ∧
    (∀ s ∈ (comparatorFigure predFrameW gtFrameW clusFrameW).top,
      s.marker_x = true →
      s.color = some "red" ∧ s.xs = clusFrameW.col "feature_1" ∧
        s.ys = clusFrameW.col "feature_2") ∧
    (∀ s ∈ (comparatorFigure predFrameW gtFrameW clusFrameW).top,
      s.marker_x = false → s.color = none) ∧
    (comparatorFigure predFrameW gtFrameW clusFrameW).bottom.length =
      (gtFrameW.col "cls").toFinset.card :=
  comparator_series_counts predFrameW gtFrameW clusFrameW 3 (by decide)

theorem plot_flag_frame_witness :
    writtenFiles (generatorTrace ["--plot"] dZero) =
      writtenFiles (generatorTrace [] dZero) ∧
    (∀ i j : Nat, ∀ nm : String, ∀ ls : List (List Field),
      (generatorTrace ["--plot"] dZero)[i]? = some Effect.plot →
      (generatorTrace ["--plot"] dZero)[j]? = some (Effect.write nm ls) →
      i < j) :=
  plot_flag_frame ["--plot"] [] dZero

theorem cli_plot_only_witness :
    (Effect.plot ∈ generatorTrace ["--plot"] dZero ↔ "--plot" ∈ ["--plot"]) ∧
    (("--plot" ∈ ["--plot"] ↔ "--plot" ∈ ["--plot", "extra"]) →
      generatorTrace ["--plot"] dZero = generatorTrace ["--plot", "extra"] dZero) :=
  cli_plot_only ["--plot"] ["--plot", "extra"] dZero

theorem skiprows_unconditional_witness :
    gtFrameW.rows.length = (gtHeadW :: gtRestW).length - 1 ∧
    read_csv (gtHeadW :: gtRestW) predNames 1 =
      read_csv (gtHeadAltW :: gtRestW) predNames 1 :=
  skiprows_unconditional gtHeadW gtHeadAltW gtRestW gtFrameW (by decide)

theorem nonNumeric_field_aborts_witness :
    comparatorRun gtFileW gtFileW clusFileW = none :=
  nonNumeric_field_aborts gtFileW gtFileW clusFileW
    (Or.inl ⟨gtHeadW, by decide, "feature_0", by decide⟩)

end FzyKmeans
